import Mathlib

/-!
Verification of the Spectral-GUI measurement framework against its
specification.  The Python sources are shallowly embedded: mutable object
state becomes explicit state passing on structures, Python floats become
rationals (ℚ), transcendental library calls (math.cos, math.sin, math.pi,
float powers, math.exp, random noise) become function parameters, and the
event-callback side effects are recorded in an explicit event log.
-/

/-! ## Embedding of src/core/device_interface.py -/

/-- The `DeviceStatus` enum from src/core/device_interface.py. -/
inductive DeviceStatus
  | disconnected
  | connecting
  | connected
  | measuring
  | error
  | busy
deriving DecidableEq, Repr

/-- The `MeasurementType` enum from src/core/device_interface.py. -/
inductive MeasurementType
  | radiance
  | irradiance
  | transmittance
  | reflectance
  | absorbance
  | raw
deriving DecidableEq, Repr

/-- Embedding of `.value` of a `MeasurementType` member. -/
def MeasurementType.value : MeasurementType → String
  | .radiance => "radiance"
  | .irradiance => "irradiance"
  | .transmittance => "transmittance"
  | .reflectance => "reflectance"
  | .absorbance => "absorbance"
  | .raw => "raw"

/-- A notification fired through `SpectralDevice._notify`: the named event
channel together with its payload. -/
inductive DeviceEvent
  | statusChanged (s : DeviceStatus)
  | errorEvent (msg : String)
  | measurementComplete
deriving DecidableEq, Repr

/-- State owned by the `SpectralDevice` base class (`__init__`): the private
`_status` and `_last_error` fields.  The callback registry is not stored;
instead `events` logs, in order, every notification the object fired, so that
theorems can speak about which callbacks would run. -/
structure DeviceBase where
  _status : DeviceStatus := .disconnected
  _last_error : String := ""
  events : List DeviceEvent := []
deriving DecidableEq, Repr

/-- The `status` property setter: assigns `_status` and fires
`status_changed` only when the value actually changed. -/
def statusSet (d : DeviceBase) (value : DeviceStatus) : DeviceBase :=
  let old_status := d._status
  let d := { d with _status := value }
  if old_status ≠ value then
    { d with events := d.events ++ [.statusChanged value] }
  else
    d

/-- Embedding of `SpectralDevice.set_error`: stores the message, assigns `_status`
directly (not through the property setter) and fires only `error`. -/
def set_error (d : DeviceBase) (message : String) : DeviceBase :=
  let d := { d with _last_error := message }
  let d := { d with _status := DeviceStatus.error }
  { d with events := d.events ++ [.errorEvent message] }

/-- Embedding of `SpectralDevice.clear_error`: clears `_last_error`; if the status is
Error it assigns `_status` directly (no notification), to Connected or
Disconnected depending on `is_connected()`.  `is_connected` is abstract in
the Python class, so its result is the parameter `conn`. -/
def clear_error (d : DeviceBase) (conn : Bool) : DeviceBase :=
  let d := { d with _last_error := "" }
  if d._status = DeviceStatus.error then
    { d with _status := if conn then DeviceStatus.connected else DeviceStatus.disconnected }
  else
    d

/-- C7: clearing the error state while status is Error restores Connected
or Disconnected according to `is_connected()`, and the last-error message is
always cleared. -/
theorem clear_error_restores_status (d : DeviceBase) (conn : Bool)
    (h : d._status = DeviceStatus.error) :
    (clear_error d conn)._status
        = (if conn then DeviceStatus.connected else DeviceStatus.disconnected)
      ∧ (clear_error d conn)._last_error = "" := by
  unfold clear_error
  simp [h]

/-- Witness for C7 at a concrete error state. -/
theorem clear_error_restores_status_witness :
    ({ _status := .error, _last_error := "boom" } : DeviceBase)._status = DeviceStatus.error
      ∧ (clear_error { _status := .error, _last_error := "boom" } true)._status
          = (if true then DeviceStatus.connected else DeviceStatus.disconnected)
      ∧ (clear_error { _status := .error, _last_error := "boom" } true)._last_error = "" := by
  refine ⟨rfl, ?_, ?_⟩
  · exact (clear_error_restores_status { _status := .error, _last_error := "boom" } true rfl).1
  · exact (clear_error_restores_status { _status := .error, _last_error := "boom" } true rfl).2

/-- C10: `set_error` and `clear_error` bypass the status property setter, so
neither fires `status_changed`: `set_error` appends only the `error` event,
`clear_error` appends no event at all, and the property setter fires
`status_changed` exactly when the new value differs from the old. -/
theorem error_setters_bypass_status_changed (d : DeviceBase) (m : String)
    (v : DeviceStatus) (conn : Bool) :
    (set_error d m).events = d.events ++ [DeviceEvent.errorEvent m]
      ∧ (set_error d m)._status = DeviceStatus.error
      ∧ (clear_error d conn).events = d.events
      ∧ (statusSet d v).events
          = d.events ++ (if d._status ≠ v then [DeviceEvent.statusChanged v] else []) := by
  refine ⟨rfl, rfl, ?_, ?_⟩
  · by_cases hs : d._status = DeviceStatus.error
    · cases conn <;> simp [clear_error, hs]
    · simp [clear_error, hs]
  · unfold statusSet
    split <;> simp_all

/-! ## Embedding of src/core/measurement_result.py -/

/-- The `MeasurementResult` dataclass.  Floats are embedded as rationals;
`timestamp`, the unit enums and the free-form dictionaries are elided (they
never interact with the claimed invariant).  The dataclass defines no
`__post_init__` and no other validation, so the embedded constructor is the
plain record constructor with the dataclass field defaults. -/
structure MeasurementResult where
  wavelengths : List ℚ
  spectral_data : List ℚ
  measurement_type : String
  luminance : ℚ := 0
  illuminance : ℚ := 0
  integration_time_ms : Int := 0
  num_scans : Int := 1
  saturation_level : ℚ := 0
  signal_to_noise : ℚ := 0
  is_valid : Bool := true
  device_name : String := ""
  device_serial : String := ""
  error_message : String := ""
deriving DecidableEq, Repr

/-- The `MeasurementResult.pixel_count` property. -/
def MeasurementResult.pixel_count (r : MeasurementResult) : Nat :=
  r.wavelengths.length

/-- The dataclass `__init__` with only the three required arguments passed:
fills every other field with its declared default and performs no checks. -/
def measurementResultInit (wavelengths spectral_data : List ℚ)
    (measurement_type : String) : MeasurementResult :=
  { wavelengths := wavelengths
    spectral_data := spectral_data
    measurement_type := measurement_type }

/-- Embedding of `MeasurementError.to_result`: the error sentinel with empty arrays,
`is_valid = False` and the error message set. -/
def MeasurementError.to_result (message : String) : MeasurementResult :=
  { wavelengths := []
    spectral_data := []
    measurement_type := "error"
    is_valid := false
    error_message := message }

/-- C2 counterexample: constructing a `MeasurementResult` whose wavelengths
and spectral_data differ in length succeeds — the dataclass has no
`__post_init__` and performs no validation, so nothing is rejected at
construction; the mismatched instance even carries `is_valid = true`. -/
theorem measurementResult_no_length_validation :
    (measurementResultInit [380, 381] [0] ("radiance")).wavelengths.length = 2
      ∧ (measurementResultInit [380, 381] [0] ("radiance")).spectral_data.length = 1
      ∧ (measurementResultInit [380, 381] [0] ("radiance")).is_valid = true := by
  refine ⟨rfl, rfl, rfl⟩

/-! ## Embedding of the measurement scheduling layer
(src/gui/main_window.py: `SpectralMeasurementGUI`)

The scheduling state of the GUI object is the set of fields assigned in `__init__`:
`is_measuring`, `abort_requested`, the `measurement_queue` and the
`measurement_type` variable.  `running` records whether a worker thread
started by `_start_measurement_thread` is still executing, and
`started_requests` logs, in order, the measurement type of every worker
thread ever started — the purely-UI side effects (buttons, progress bar,
status label, message boxes) are elided. -/

/-- A message posted on `self.measurement_queue` by the worker thread:
a success tuple carrying the result, an error tuple carrying the message,
or an aborted tuple. -/
inductive QueueMsg
  | success (r : MeasurementResult)
  | error (msg : String)
  | aborted
deriving DecidableEq, Repr

/-- Scheduling state of `SpectralMeasurementGUI`. -/
structure GuiState where
  is_measuring : Bool := false
  abort_requested : Bool := false
  running : Bool := false
  queue : List QueueMsg := []
  measurement_type_var : String := "irradiance"
  started_requests : List String := []
deriving DecidableEq, Repr

/-- Return signal of `_measure`: rejection (the "Busy" warning box followed
by `return`) or a started worker. -/
inductive MeasureResp
  | rejected
  | started
deriving DecidableEq, Repr

/-- Embedding of `_start_measurement_thread`: sets the measuring flag, clears the abort
flag and starts one worker thread for `measurement_type`. -/
def _start_measurement_thread (g : GuiState) (measurement_type : String) : GuiState :=
  { g with
      is_measuring := true
      abort_requested := false
      running := true
      started_requests := g.started_requests ++ [measurement_type] }

/-- Embedding of `_measure`: if `is_measuring` is set, shows the "Busy" warning and
returns (rejection); otherwise starts a measurement thread for the currently
selected type. -/
def _measure (g : GuiState) : GuiState × MeasureResp :=
  if g.is_measuring then
    (g, MeasureResp.rejected)
  else
    (_start_measurement_thread g g.measurement_type_var, MeasureResp.started)

/-- Embedding of `_quick_measure`: silently returns if `is_measuring` is set; otherwise
selects the given type and starts a measurement thread for it. -/
def _quick_measure (g : GuiState) (measurement_type : String) : GuiState :=
  if g.is_measuring then
    g
  else
    _start_measurement_thread
      { g with measurement_type_var := measurement_type } measurement_type

/-- Embedding of `_abort_measurement`: if a measurement is in progress, set the
cooperative abort flag (the call to `device.abort_measurement()` is a device
side effect, elided). -/
def _abort_measurement (g : GuiState) : GuiState :=
  if g.is_measuring then { g with abort_requested := true } else g

/-- The `_measurement_thread` body: after `configure`, the worker reads
`abort_requested` once; if set it posts `aborted` and returns without
invoking `device.measure`.  Otherwise it invokes the device — whose outcome
is the external parameter `deviceResult` (`None` on error) — and posts
`success`/`error` accordingly.  Returns the updated queue and whether the
device measure call was made.  A flag set only after the device call
returned is never re-read, so it cannot turn the posted outcome into
`aborted`. -/
def _measurement_thread (g : GuiState) (queue : List QueueMsg)
    (deviceResult : Option MeasurementResult) : List QueueMsg × Bool :=
  if g.abort_requested then
    (queue ++ [QueueMsg.aborted], false)
  else
    match deviceResult with
    | none => (queue ++ [QueueMsg.error ("Measurement failed")], true)
    | some result => (queue ++ [QueueMsg.success result], true)

/-- The drain loop of `_process_queue`: pops messages until the queue raises
`Empty`; each dequeued message clears `is_measuring` (the per-message result
handlers touch only UI state, elided). -/
def processMsgs (g : GuiState) : List QueueMsg → GuiState
  | [] => g
  | _msg :: rest => processMsgs { g with is_measuring := false } rest

/-- Embedding of `_process_queue` (one polling tick): drains all queued outcomes. -/
def _process_queue (g : GuiState) : GuiState :=
  processMsgs { g with queue := [] } g.queue

/-- Events that touch the scheduling state: the user pressing Measure, a
keyboard quick-measure, the user pressing abort, the worker thread finishing
(possible only while a worker runs), and the 100 ms polling tick. -/
inductive GuiEvent
  | userMeasure
  | userQuickMeasure (t : String)
  | userAbort
  | workerFinish (deviceResult : Option MeasurementResult)
  | queueTick

/-- One step of the scheduling layer. -/
def schedStep (g : GuiState) : GuiEvent → GuiState
  | .userMeasure => (_measure g).1
  | .userQuickMeasure t => _quick_measure g t
  | .userAbort => _abort_measurement g
  | .workerFinish deviceResult =>
      if g.running then
        { g with queue := (_measurement_thread g g.queue deviceResult).1, running := false }
      else g
  | .queueTick => _process_queue g

/-- Number of outstanding measurement requests: a running worker plus
still-undrained outcomes in the delivery queue. -/
def outstanding (g : GuiState) : Nat :=
  (if g.running then 1 else 0) + g.queue.length

/-- Scheduler invariant: at most one request is outstanding, and when the
measuring flag is clear nothing is outstanding at all. -/
def SchedInv (g : GuiState) : Prop :=
  outstanding g ≤ 1 ∧ (g.is_measuring = false → g.running = false ∧ g.queue = [])

/-- Value of `outstanding` when a worker is running. -/
theorem outstanding_running (g : GuiState) (h : g.running = true) :
    outstanding g = 1 + g.queue.length := by
  unfold outstanding
  rw [h]
  simp

/-- Value of `outstanding` when no worker is running. -/
theorem outstanding_idle (g : GuiState) (h : g.running = false) :
    outstanding g = g.queue.length := by
  unfold outstanding
  rw [h]
  simp

/-- Each worker posts exactly one outcome message. -/
theorem measurement_thread_posts_one (g : GuiState) (q : List QueueMsg)
    (res : Option MeasurementResult) :
    (_measurement_thread g q res).1.length = q.length + 1 := by
  unfold _measurement_thread
  by_cases ha : g.abort_requested = true
  · simp [ha]
  · cases res <;> simp [ha]

/-- Draining never touches the worker or the (already emptied) queue and
clears the measuring flag exactly when a message was dequeued. -/
theorem processMsgs_fields (g : GuiState) (msgs : List QueueMsg) :
    (processMsgs g msgs).running = g.running
      ∧ (processMsgs g msgs).queue = g.queue
      ∧ (processMsgs g msgs).is_measuring
          = (if msgs = [] then g.is_measuring else false) := by
  induction msgs generalizing g with
  | nil => simp [processMsgs]
  | cons m rest ih =>
      rcases ih { g with is_measuring := false } with ⟨h1, h2, h3⟩
      refine ⟨h1, h2, ?_⟩
      show (processMsgs { g with is_measuring := false } rest).is_measuring = _
      rw [h3]
      cases rest <;> simp

/-- C1: the single-outstanding-request invariant is preserved by every
scheduling event, and `_measure` during an outstanding request is a no-op
returning the rejection signal with the whole scheduler state (flags, queue,
worker log) unchanged. -/
theorem scheduler_single_outstanding (g : GuiState) (e : GuiEvent)
    (h : SchedInv g) :
    SchedInv (schedStep g e)
      ∧ (g.is_measuring = true → _measure g = (g, MeasureResp.rejected)) := by
  obtain ⟨hout, hidle⟩ := h
  refine ⟨?_, ?_⟩
  · cases e with
    | userMeasure =>
        by_cases hm : g.is_measuring
        · rw [show schedStep g GuiEvent.userMeasure = g from by
            simp [schedStep, _measure, hm]]
          exact ⟨hout, hidle⟩
        · obtain ⟨hr, hq⟩ := hidle (by simpa using hm)
          rw [show schedStep g GuiEvent.userMeasure
              = _start_measurement_thread g g.measurement_type_var from by
            simp [schedStep, _measure, hm]]
          unfold SchedInv outstanding _start_measurement_thread
          simp [hq]
    | userQuickMeasure t =>
        by_cases hm : g.is_measuring
        · rw [show schedStep g (GuiEvent.userQuickMeasure t) = g from by
            simp [schedStep, _quick_measure, hm]]
          exact ⟨hout, hidle⟩
        · obtain ⟨hr, hq⟩ := hidle (by simpa using hm)
          rw [show schedStep g (GuiEvent.userQuickMeasure t)
              = _start_measurement_thread
                  { g with measurement_type_var := t } t from by
            simp [schedStep, _quick_measure, hm]]
          unfold SchedInv outstanding _start_measurement_thread
          simp [hq]
    | userAbort =>
        by_cases hm : g.is_measuring
        · rw [show schedStep g GuiEvent.userAbort
              = { g with abort_requested := true } from by
            simp [schedStep, _abort_measurement, hm]]
          refine ⟨hout, ?_⟩
          intro hfalse
          have hfalse2 : g.is_measuring = false := hfalse
          rw [hm] at hfalse2
          exact absurd hfalse2 (by decide)
        · rw [show schedStep g GuiEvent.userAbort = g from by
            simp [schedStep, _abort_measurement, hm]]
          exact ⟨hout, hidle⟩
    | workerFinish deviceResult =>
        cases hr : g.running
        · rw [show schedStep g (GuiEvent.workerFinish deviceResult) = g from by
            simp [schedStep, hr]]
          exact ⟨hout, hidle⟩
        · have hq : g.queue = [] := by
            rw [outstanding_running g hr] at hout
            exact List.eq_nil_of_length_eq_zero (by omega)
          have hm : g.is_measuring = true := by
            by_contra hmc
            have h2 := (hidle (by simpa using hmc)).1
            rw [hr] at h2
            exact absurd h2 (by decide)
          rw [show schedStep g (GuiEvent.workerFinish deviceResult)
              = { g with
                    queue := (_measurement_thread g g.queue deviceResult).1
                    running := false } from by
            simp [schedStep, hr]]
          refine ⟨?_, ?_⟩
          · unfold outstanding
            simp [measurement_thread_posts_one, hq]
          · intro hfalse
            have hfalse2 : g.is_measuring = false := hfalse
            rw [hm] at hfalse2
            exact absurd hfalse2 (by decide)
    | queueTick =>
        obtain ⟨h1, h2, h3⟩ := processMsgs_fields { g with queue := [] } g.queue
        unfold schedStep _process_queue SchedInv outstanding
        refine ⟨?_, ?_⟩
        · rw [h1, h2]
          cases hrr : g.running <;> simp [hrr]
        · intro hm
          rw [h3] at hm
          rw [h1, h2]
          refine ⟨?_, rfl⟩
          by_cases hqe : g.queue = []
          · rw [if_pos hqe] at hm
            exact (hidle hm).1
          · have hlen : 0 < g.queue.length := List.length_pos.mpr hqe
            cases hrr : g.running
            · rfl
            · exfalso
              rw [outstanding_running g hrr] at hout
              omega
  · intro hm
    unfold _measure
    simp [hm]

/-- Witness for C1 at a concrete state with an outstanding measurement. -/
theorem scheduler_single_outstanding_witness :
    SchedInv { is_measuring := true, running := true }
      ∧ SchedInv (schedStep { is_measuring := true, running := true } GuiEvent.queueTick)
      ∧ _measure { is_measuring := true, running := true }
          = ({ is_measuring := true, running := true }, MeasureResp.rejected) := by
  have hinv : SchedInv ({ is_measuring := true, running := true } : GuiState) := by
    unfold SchedInv outstanding
    decide
  exact ⟨hinv,
    (scheduler_single_outstanding _ GuiEvent.queueTick hinv).1,
    (scheduler_single_outstanding _ GuiEvent.queueTick hinv).2 rfl⟩

/-- C5: the worker checks the cooperative abort flag once, before the device
call.  If the flag is observed set there, it posts `Aborted` and never makes
the device call; if the flag was clear at the check, the device call is made
and the posted outcome is the original `Success`/`Error` (never `Aborted`),
even if the flag gets set after the device call returned, since the flag is
never re-read. -/
theorem measurement_thread_abort_semantics (g : GuiState) (q : List QueueMsg)
    (r : MeasurementResult) :
    (g.abort_requested = true →
        _measurement_thread g q (some r) = (q ++ [QueueMsg.aborted], false)
          ∧ _measurement_thread g q none = (q ++ [QueueMsg.aborted], false))
      ∧ (g.abort_requested = false →
        _measurement_thread g q (some r) = (q ++ [QueueMsg.success r], true)
          ∧ _measurement_thread g q none
              = (q ++ [QueueMsg.error ("Measurement failed")], true)) := by
  constructor
  · intro h
    constructor <;> simp [_measurement_thread, h]
  · intro h
    constructor <;> simp [_measurement_thread, h]

/-- Witness for C5 at concrete abort-flag values. -/
theorem measurement_thread_abort_semantics_witness :
    ({ abort_requested := true } : GuiState).abort_requested = true
      ∧ _measurement_thread { abort_requested := true } []
          (some (measurementResultInit [] [] ("radiance")))
          = ([QueueMsg.aborted], false)
      ∧ _measurement_thread { abort_requested := false } [] none
          = ([QueueMsg.error ("Measurement failed")], true) := by
  refine ⟨rfl, ?_, ?_⟩
  · exact ((measurement_thread_abort_semantics { abort_requested := true } []
      (measurementResultInit [] [] ("radiance"))).1 rfl).1
  · exact ((measurement_thread_abort_semantics { abort_requested := false } []
      (measurementResultInit [] [] ("radiance"))).2 rfl).2

/-! ## Auto-repeat cycle (src/gui/main_window.py: `_auto_repeat_cycle`) -/

/-- The per-cycle loop of `_auto_repeat_cycle` (the self-reschedule via
`root.after`, the auto-save timer and the next-time label are elided): for
each `(mtype, enabled)` entry of `auto_repeat_types`, quick-measure the type
when it is enabled and `is_measuring` is not set. -/
def auto_repeat_pass (g : GuiState) : List (String × Bool) → GuiState
  | [] => g
  | (mtype, enabled) :: rest =>
      let g := if enabled && !g.is_measuring then _quick_measure g mtype else g
      auto_repeat_pass g rest

/-- First enabled measurement type of the selection list. -/
def firstEnabled : List (String × Bool) → Option String
  | [] => none
  | (t, true) :: _ => some t
  | (_, false) :: rest => firstEnabled rest

/-- While the measuring flag is set, a cycle changes nothing. -/
theorem auto_repeat_pass_measuring (g : GuiState) (types : List (String × Bool))
    (h : g.is_measuring = true) : auto_repeat_pass g types = g := by
  induction types with
  | nil => rfl
  | cons p rest ih =>
      obtain ⟨t, en⟩ := p
      unfold auto_repeat_pass
      simp [h, ih]

/-- C6 counterexample: starting a cycle with two selected types and nothing
outstanding, the cycle issues a request only for the first type; the second
selected type is not the subject of any outstanding request, yet no request
is issued for it, because the first request set the single global
`is_measuring` flag. -/
theorem auto_repeat_skips_free_type :
    ({} : GuiState).is_measuring = false
      ∧ (auto_repeat_pass {} [("radiance", true), ("irradiance", true)]).started_requests
          = ["radiance"]
      ∧ "irradiance"
          ∉ (auto_repeat_pass {} [("radiance", true), ("irradiance", true)]).started_requests := by
  refine ⟨rfl, by decide, by decide⟩

/-- C6 amended: each auto-repeat cycle issues at most one measurement
request — none when a measurement is already outstanding at cycle start, and
otherwise exactly one, for the first enabled type in the selection; every
other selected type is silently skipped for that cycle (no fault is
raised — the loop body is a plain conditional). -/
theorem auto_repeat_cycle_requests (g : GuiState) (types : List (String × Bool)) :
    (auto_repeat_pass g types).started_requests
      = g.started_requests
        ++ (if g.is_measuring then []
            else (firstEnabled types).elim [] (fun t => [t])) := by
  induction types generalizing g with
  | nil => cases hm : g.is_measuring <;> simp [auto_repeat_pass, firstEnabled, hm]
  | cons p rest ih =>
      obtain ⟨t, en⟩ := p
      cases hm : g.is_measuring
      · cases en
        · unfold auto_repeat_pass
          rw [if_neg (by simp)]
          rw [ih g]
          simp [hm, firstEnabled]
        · unfold auto_repeat_pass
          have hstart : (_quick_measure g t).is_measuring = true := by
            simp [_quick_measure, hm, _start_measurement_thread]
          rw [if_pos (by simp [hm])]
          rw [auto_repeat_pass_measuring _ rest hstart]
          simp [_quick_measure, hm, _start_measurement_thread, firstEnabled]
      · rw [auto_repeat_pass_measuring g ((t, en) :: rest) hm]
        simp [hm]

/-! ## Event notification (`SpectralDevice._notify`) -/

/-- A registered listener: receives the event payload and either returns
normally or raises (`Except.error` carries the raised exception rendered as
a string, which `_notify` prints). -/
def Listener (α : Type) : Type := α → Except String Unit

/-- Invoking one listener under the `try/except` inside `_notify`: `none`
when the callback returned normally, `some e` when it raised and the failure
was merely logged. -/
def notifyOne {α : Type} (callback : Listener α) (data : α) : Option String :=
  match callback data with
  | Except.ok _ => none
  | Except.error e => some e

/-- The `for callback in self._callbacks[event]` loop of `_notify`: each
registered callback is invoked in order, each inside its own `try/except`. -/
def notifyAll {α : Type} (callbacks : List (Listener α)) (data : α) :
    List (Option String) :=
  match callbacks with
  | [] => []
  | callback :: rest => notifyOne callback data :: notifyAll rest data

/-- C8: a raising listener is isolated.  The notification loop invokes every
registered listener exactly once, each outcome depending only on that
listener itself — a throw earlier in the list neither prevents later
listeners from running nor changes their outcome — and the loop itself
always returns normally (it produces a log list, never a propagated
exception). -/
theorem notify_isolates_listener_failures {α : Type}
    (callbacks : List (Listener α)) (data : α) :
    notifyAll callbacks data
        = callbacks.map (fun callback => notifyOne callback data)
      ∧ (notifyAll callbacks data).length = callbacks.length := by
  have hmap : ∀ cbs : List (Listener α),
      notifyAll cbs data = cbs.map (fun callback => notifyOne callback data) := by
    intro cbs
    induction cbs with
    | nil => rfl
    | cons c rest ih => simp [notifyAll, ih]
  exact ⟨hmap callbacks, by rw [hmap callbacks]; simp⟩

/-! ## Embedding of the color mapper (src/gui/plot_window.py)

Python floats are embedded as rationals.  The transcendental library calls
(`math.pi`, `math.cos`, `math.sin` and the float power `** (1 / 2.4)`) are
opaque external functions, embedded as the fields of a `FloatOps` parameter;
every theorem below holds for every choice of these functions, hence in
particular for the real ones. -/

/-- The transcendental operations the color mapper calls. -/
structure FloatOps where
  pi : ℚ
  cos : ℚ → ℚ
  sin : ℚ → ℚ
  powInv24 : ℚ → ℚ

/-- The nested `f_inv` of `hcl_to_rgb` (CIE inverse-f, breakpoint 6/29). -/
def f_inv (t : ℚ) : ℚ :=
  let delta : ℚ := 6 / 29
  if t > delta then t ^ 3 else 3 * delta ^ 2 * (t - 4 / 29)

/-- The nested `gamma_correct` of `hcl_to_rgb` (sRGB encoding).  The power
branch is taken only for `c > 0.0031308`, so the opaque float power is
applied to positive inputs only. -/
def gamma_correct (powInv24 : ℚ → ℚ) (c : ℚ) : ℚ :=
  if c ≤ 0.0031308 then 12.92 * c else 1.055 * powInv24 c - 0.055

/-- The final per-channel clamp `max(0, min(1, x))`. -/
def clamp01 (x : ℚ) : ℚ := max 0 (min 1 x)

/-- Embedding of `hcl_to_rgb` from src/gui/plot_window.py. -/
def hcl_to_rgb (ops : FloatOps) (h c l : ℚ) : ℚ × ℚ × ℚ :=
  let h_rad := h * ops.pi / 180
  let a := c * ops.cos h_rad
  let b := c * ops.sin h_rad
  let Xn : ℚ := 95.047
  let Yn : ℚ := 100.0
  let Zn : ℚ := 108.883
  let fy := (l + 16) / 116
  let fx := a / 500 + fy
  let fz := fy - b / 200
  let X := Xn * f_inv fx
  let Y := Yn * f_inv fy
  let Z := Zn * f_inv fz
  let X := X / 100
  let Y := Y / 100
  let Z := Z / 100
  let R := 3.2404542 * X - 1.5371385 * Y - 0.4985314 * Z
  let G := -0.9692660 * X + 1.8760108 * Y + 0.0415560 * Z
  let B := 0.0556434 * X - 0.2040259 * Y + 1.0572252 * Z
  let R := gamma_correct ops.powInv24 R
  let G := gamma_correct ops.powInv24 G
  let B := gamma_correct ops.powInv24 B
  (clamp01 R, clamp01 G, clamp01 B)

/-- The six-band piecewise map of `wavelength_to_rgb` producing the
`(hue, chroma, luminance)` triple. -/
def spectrumBands (wavelength : ℚ) : ℚ × ℚ × ℚ :=
  if wavelength < 440 then
    let t := (wavelength - 380) / (440 - 380)
    (285 - t * 25, 60 + t * 40, 30 + t * 25)
  else if wavelength < 490 then
    let t := (wavelength - 440) / (490 - 440)
    (260 - t * 50, 100, 55 + t * 15)
  else if wavelength < 510 then
    let t := (wavelength - 490) / (510 - 490)
    (210 - t * 50, 100 - t * 10, 70 + t * 10)
  else if wavelength < 580 then
    let t := (wavelength - 510) / (580 - 510)
    (160 - t * 75, 90 + t * 10, 80 + t * 15)
  else if wavelength < 645 then
    let t := (wavelength - 580) / (645 - 580)
    (85 - t * 45, 100, 95 - t * 20)
  else
    let t := (wavelength - 645) / (780 - 645)
    (40 - t * 25, 100 - t * 30, 75 - t * 35)

/-- The intensity falloff of `wavelength_to_rgb` near the spectrum edges,
multiplying chroma and luminance. -/
def edgeFalloff (wavelength chroma luminance : ℚ) : ℚ × ℚ :=
  if wavelength < 420 then
    let intensity := 0.3 + 0.7 * (wavelength - 380) / (420 - 380)
    (chroma * intensity, luminance * intensity)
  else if wavelength > 700 then
    let intensity := 0.3 + 0.7 * (780 - wavelength) / (780 - 700)
    (chroma * intensity, luminance * intensity)
  else
    (chroma, luminance)

/-- Embedding of `wavelength_to_rgb` from src/gui/plot_window.py: sequential clamping of
the wavelength to [380, 780] followed by the band map, the edge falloff and
the HCL→RGB conversion.  (The Python `gamma` parameter is documented as
unused and kept only for API compatibility, so it is elided.) -/
def wavelength_to_rgb (ops : FloatOps) (wavelength : ℚ) : ℚ × ℚ × ℚ :=
  let wavelength := if wavelength < 380 then 380 else wavelength
  let wavelength := if wavelength > 780 then 780 else wavelength
  let hcl := spectrumBands wavelength
  let cl := edgeFalloff wavelength hcl.2.1 hcl.2.2
  hcl_to_rgb ops hcl.1 cl.1 cl.2

/-- The function `clamp(w, 380, 780)` as the specification words it. -/
def clampVisible (w : ℚ) : ℚ := max 380 (min 780 w)

/-- Concrete stand-in for the transcendental operations, used in witnesses. -/
def opsZero : FloatOps :=
  { pi := 0, cos := fun _ => 0, sin := fun _ => 0, powInv24 := fun _ => 0 }

theorem clamp01_nonneg (x : ℚ) : 0 ≤ clamp01 x := le_max_left 0 (min 1 x)

theorem clamp01_le_one (x : ℚ) : clamp01 x ≤ 1 :=
  max_le (by norm_num) (min_le_left 1 x)

/-- Every channel produced by `hcl_to_rgb` lies in [0, 1], for every choice
of the transcendental operations. -/
theorem hcl_to_rgb_range (ops : FloatOps) (h c l : ℚ) :
    (0 ≤ (hcl_to_rgb ops h c l).1 ∧ (hcl_to_rgb ops h c l).1 ≤ 1)
      ∧ (0 ≤ (hcl_to_rgb ops h c l).2.1 ∧ (hcl_to_rgb ops h c l).2.1 ≤ 1)
      ∧ (0 ≤ (hcl_to_rgb ops h c l).2.2 ∧ (hcl_to_rgb ops h c l).2.2 ≤ 1) := by
  exact ⟨⟨clamp01_nonneg _, clamp01_le_one _⟩, ⟨clamp01_nonneg _, clamp01_le_one _⟩,
    ⟨clamp01_nonneg _, clamp01_le_one _⟩⟩

/-- C3: for every wavelength in [380, 780] the mapping returns exactly three
channel values, each in [0, 1]; and it is a pure deterministic function:
equal inputs give equal outputs, with no hidden state (the embedding is a
function of its arguments only). -/
theorem wavelength_to_rgb_range_deterministic (ops : FloatOps) (w : ℚ)
    (h1 : 380 ≤ w) (h2 : w ≤ 780) :
    (0 ≤ (wavelength_to_rgb ops w).1 ∧ (wavelength_to_rgb ops w).1 ≤ 1)
      ∧ (0 ≤ (wavelength_to_rgb ops w).2.1 ∧ (wavelength_to_rgb ops w).2.1 ≤ 1)
      ∧ (0 ≤ (wavelength_to_rgb ops w).2.2 ∧ (wavelength_to_rgb ops w).2.2 ≤ 1)
      ∧ (∀ w2, w2 = w → wavelength_to_rgb ops w2 = wavelength_to_rgb ops w) := by
  exact ⟨(hcl_to_rgb_range ops _ _ _).1, (hcl_to_rgb_range ops _ _ _).2.1,
    (hcl_to_rgb_range ops _ _ _).2.2, fun w2 hw => by rw [hw]⟩

/-- Witness for C3 at wavelength 550 nm. -/
theorem wavelength_to_rgb_range_deterministic_witness :
    ((380 : ℚ) ≤ 550 ∧ (550 : ℚ) ≤ 780)
      ∧ (0 ≤ (wavelength_to_rgb opsZero 550).1
          ∧ (wavelength_to_rgb opsZero 550).1 ≤ 1) := by
  exact ⟨⟨by norm_num, by norm_num⟩,
    (wavelength_to_rgb_range_deterministic opsZero 550 (by norm_num)
      (by norm_num)).1⟩

/-- The sequential clamping at the top of `wavelength_to_rgb` computes
`clamp(w, 380, 780)`. -/
theorem clamp_seq_eq (w : ℚ) :
    (if (if w < 380 then (380 : ℚ) else w) > 780 then (780 : ℚ)
      else if w < 380 then (380 : ℚ) else w) = clampVisible w := by
  unfold clampVisible
  rcases lt_or_le w 380 with hlo | hlo
  · rw [if_pos hlo, if_neg (by norm_num)]
    rw [min_eq_right (by linarith), max_eq_left (by linarith)]
  · rw [if_neg (not_lt.mpr hlo)]
    rcases lt_or_le 780 w with hhi | hhi
    · rw [if_pos hhi, min_eq_left (le_of_lt hhi), max_eq_right (by norm_num)]
    · rw [if_neg (not_lt.mpr hhi), min_eq_right hhi, max_eq_right hlo]

/-- A value already inside [380, 780] is a fixpoint of the clamp. -/
theorem clampVisible_fix (x : ℚ) (hx1 : 380 ≤ x) (hx2 : x ≤ 780) :
    clampVisible x = x := by
  unfold clampVisible
  rw [min_eq_right hx2, max_eq_right hx1]

/-- Clamping an already-clamped value is the identity. -/
theorem clampVisible_idem (w : ℚ) : clampVisible (clampVisible w) = clampVisible w :=
  clampVisible_fix _ (le_max_left _ _) (max_le (by norm_num) (min_le_left _ _))

/-- C4: for every wavelength outside [380, 780] the mapping returns exactly
the triple it returns for the clamped input `clamp(w, 380, 780)`. -/
theorem wavelength_to_rgb_out_of_range (ops : FloatOps) (w : ℚ)
    (h : w < 380 ∨ 780 < w) :
    wavelength_to_rgb ops w = wavelength_to_rgb ops (clampVisible w) := by
  simp only [wavelength_to_rgb]
  rw [clamp_seq_eq w, clamp_seq_eq (clampVisible w), clampVisible_idem w]

/-- Witness for C4 at the out-of-range wavelength 200 nm. -/
theorem wavelength_to_rgb_out_of_range_witness :
    ((200 : ℚ) < 380 ∨ (780 : ℚ) < 200)
      ∧ wavelength_to_rgb opsZero 200 = wavelength_to_rgb opsZero (clampVisible 200) := by
  exact ⟨Or.inl (by norm_num),
    wavelength_to_rgb_out_of_range opsZero 200 (Or.inl (by norm_num))⟩

/-! ## Embedding of src/devices/device_template.py and the MockDevice of
src/main.py

Each `measure` returns the updated object state, the ordered list of values
assigned to the status field during the call (whether through the property
setter or directly inside `set_error`), and the Python return value. -/

/-- Object state of `DeviceTemplate`. -/
structure TemplateState where
  base : DeviceBase := {}
  _connected : Bool := false
deriving DecidableEq, Repr

/-- Embedding of `DeviceTemplate.measure`: refuses when not connected (`set_error`, which
assigns Error directly, then `return None`); otherwise enters Measuring via
the status setter, builds the placeholder result (401 pixels from 380 nm,
zero data) and returns to Connected.  The `try` body is straight-line
placeholder code with nothing to raise, so the `except` branch is
unreachable and elided; `timestamp` and the unit/info fields are elided as
in the `MeasurementResult` embedding. -/
def template_measure (s : TemplateState) (measurement_type : MeasurementType) :
    TemplateState × List DeviceStatus × Option MeasurementResult :=
  if s._connected = false then
    ({ s with base := set_error s.base ("Device not connected") },
      [DeviceStatus.error], none)
  else
    let s1 := { s with base := statusSet s.base DeviceStatus.measuring }
    let wavelengths := (List.range 401).map (fun (i : ℕ) => 380 + (i : ℚ))
    let spectral_data := List.replicate 401 (0 : ℚ)
    let result : MeasurementResult :=
      { wavelengths := wavelengths
        spectral_data := spectral_data
        measurement_type := measurement_type.value
        luminance := 0
        illuminance := 0
        integration_time_ms := 100
        num_scans := 1
        saturation_level := 0
        device_name := "Your Device"
        device_serial := "" }
    let s2 := { s1 with base := statusSet s1.base DeviceStatus.connected }
    (s2, [DeviceStatus.measuring, DeviceStatus.connected], some result)

/-- Object state of the `MockDevice` defined inside `create_mock_device`. -/
structure MockState where
  base : DeviceBase := {}
  _connected : Bool := false
  int_time : Int := 100
  num_scans : Int := 10
deriving DecidableEq, Repr

/-- Embedding of `MockDevice.measure` from src/main.py: assigns Measuring through the
status setter before any connectivity check (it performs none), sleeps,
builds the mock Gaussian spectrum — `math.exp` and the `random` draws are
the opaque parameters `exp`, `noise` (per-pixel `random.gauss`), `lumNoise`
and `satNoise` (`random.random()`) — assigns Connected and returns the
result. -/
def mock_measure (ms : MockState) (measurement_type : MeasurementType)
    (exp : ℚ → ℚ) (noise : Nat → ℚ) (lumNoise satNoise : ℚ) :
    MockState × List DeviceStatus × Option MeasurementResult :=
  let ms1 := { ms with base := statusSet ms.base DeviceStatus.measuring }
  let wavelengths := (List.range 401).map (fun (i : ℕ) => 380 + (i : ℚ))
  let data := (List.range 401).map (fun (i : ℕ) =>
    let wl : ℚ := 380 + (i : ℚ)
    let val := 0.8 * exp (-0.5 * ((wl - 550) / 30) ^ 2)
    let val := val + 0.4 * exp (-0.5 * ((wl - 480) / 20) ^ 2)
    let val := val + 0.6 * exp (-0.5 * ((wl - 620) / 25) ^ 2)
    let val := val + noise i
    max 0 val)
  let luminance := data.sum * 10 + lumNoise
  let ms2 := { ms1 with base := statusSet ms1.base DeviceStatus.connected }
  (ms2, [DeviceStatus.measuring, DeviceStatus.connected],
    some
      { wavelengths := wavelengths
        spectral_data := data
        measurement_type := measurement_type.value
        luminance :=
          if measurement_type = MeasurementType.radiance then luminance else 0
        illuminance :=
          if measurement_type = MeasurementType.irradiance then luminance else 0
        integration_time_ms := ms.int_time
        num_scans := ms.num_scans
        saturation_level := satNoise * 0.1
        device_name := "Mock Spectrometer"
        device_serial := "MOCK001" })

/-- C9 counterexample: invoking `MockDevice.measure` while the device is
disconnected (fresh mock object, `_connected = False`) assigns Measuring to
the device status — the Disconnected → Measuring transition the claim rules
out for every device implementation — and even leaves the disconnected
device in status Connected afterwards. -/
theorem mock_measure_disconnected_enters_measuring :
    ({} : MockState)._connected = false
      ∧ DeviceStatus.measuring
          ∈ (mock_measure {} MeasurementType.radiance (fun _ => 0) (fun _ => 0) 0 0).2.1
      ∧ ((mock_measure {} MeasurementType.radiance (fun _ => 0) (fun _ => 0) 0 0).1.base)._status
          = DeviceStatus.connected := by
  have htr : (mock_measure {} MeasurementType.radiance (fun _ => 0) (fun _ => 0) 0 0).2.1
      = [DeviceStatus.measuring, DeviceStatus.connected] := rfl
  refine ⟨rfl, ?_, rfl⟩
  rw [htr]
  simp

/-- C9 amended: `DeviceTemplate.measure` while disconnected never assigns
Measuring — it sets Error and returns None — but the claim fails for every
device implementation: `MockDevice.measure` assigns Measuring
unconditionally, even on a disconnected device (see the counterexample). -/
theorem measure_disconnected_status (s : TemplateState) (ms : MockState)
    (mt : MeasurementType) (exp : ℚ → ℚ) (noise : Nat → ℚ)
    (lumNoise satNoise : ℚ) (h : s._connected = false) :
    (template_measure s mt).2.1 = [DeviceStatus.error]
      ∧ DeviceStatus.measuring ∉ (template_measure s mt).2.1
      ∧ (template_measure s mt).2.2 = none
      ∧ ((template_measure s mt).1.base)._status = DeviceStatus.error
      ∧ DeviceStatus.measuring ∈ (mock_measure ms mt exp noise lumNoise satNoise).2.1 := by
  refine ⟨?_, ?_, ?_, ?_, ?_⟩
  · simp [template_measure, h]
  · simp [template_measure, h]
  · simp [template_measure, h]
  · simp [template_measure, h, set_error]
  · simp [mock_measure]

/-- Witness for the amended C9 at concrete disconnected states. -/
theorem measure_disconnected_status_witness :
    ({} : TemplateState)._connected = false
      ∧ (template_measure {} MeasurementType.radiance).2.2 = none
      ∧ DeviceStatus.measuring ∉ (template_measure {} MeasurementType.radiance).2.1 := by
  refine ⟨rfl, ?_, ?_⟩
  · exact (measure_disconnected_status {} {} MeasurementType.radiance
      (fun _ => 0) (fun _ => 0) 0 0 rfl).2.2.1
  · exact (measure_disconnected_status {} {} MeasurementType.radiance
      (fun _ => 0) (fun _ => 0) 0 0 rfl).2.1

/-- C2 amended: construction of `MeasurementResult` performs no validation
(see the counterexample), but the length invariant does hold for every
instance produced by the device code of the repository: `DeviceTemplate.measure`
and `MockDevice.measure` build `spectral_data` with exactly as many entries
as `wavelengths`, and the `MeasurementError.to_result` sentinel uses two
empty arrays with `is_valid = False` and the error message set. -/
theorem device_results_length_invariant (s : TemplateState) (ms : MockState)
    (mt : MeasurementType) (exp : ℚ → ℚ) (noise : Nat → ℚ)
    (lumNoise satNoise : ℚ) (msg : String) :
    ((template_measure s mt).2.2).elim True
        (fun r => r.wavelengths.length = r.spectral_data.length)
      ∧ ((mock_measure ms mt exp noise lumNoise satNoise).2.2).elim True
        (fun r => r.wavelengths.length = r.spectral_data.length)
      ∧ (MeasurementError.to_result msg).wavelengths.length
          = (MeasurementError.to_result msg).spectral_data.length
      ∧ (MeasurementError.to_result msg).is_valid = false
      ∧ (MeasurementError.to_result msg).error_message = msg := by
  refine ⟨?_, ?_, rfl, rfl, rfl⟩
  · by_cases hc : s._connected = false
    · unfold template_measure
      rw [if_pos hc]
      dsimp only
      simp only [Option.elim]
    · unfold template_measure
      rw [if_neg hc]
      dsimp only
      simp only [Option.elim]
      simp only [List.length_map, List.length_range, List.length_replicate]
  · unfold mock_measure
    dsimp only
    simp only [Option.elim]
    simp only [List.length_map, List.length_range]
